import Mathlib

/-
Verification of the terminal-control / screen-rendering core of ed.c
(a kilo-style editor skeleton).  The C code is shallowly embedded:
bytes are Nat values below 256, buffers are lists of bytes, and the
OS calls (read, write, ioctl, tcgetattr, tcsetattr, realloc) are made
explicit parameters or explicit result data, so every function of the
source becomes an executable Lean definition.
-/

/-! ### Escape-sequence byte strings

Each definition lists the exact bytes of the corresponding C string
literal in src/ed.c.  ASCII: ESC = 27, "[" = 91, "?" = 63, digits 48-57,
"l" = 108, "h" = 104, "H" = 72, "J" = 74, "k" = 107, "K" = 75,
"~" = 126, CR = 13, LF = 10, ";" = 59, "R" = 82, "n" = 110,
"C" = 67, "B" = 66. -/

/-- Bytes of the C literal "\x1b[?25l" (hide cursor), src/ed.c line 176. -/
def hideCursorSeq : List Nat := [27, 91, 63, 50, 53, 108]

/-- Bytes of the C literal "\x1b[?25h" (show cursor), src/ed.c line 193. -/
def showCursorSeq : List Nat := [27, 91, 63, 50, 53, 104]

/-- Bytes of the C literal "\x1b[H" (home cursor), src/ed.c lines 33, 188, 192, 208. -/
def homeCursorSeq : List Nat := [27, 91, 72]

/-- Bytes of the C literal "\x1b[2J" (clear entire screen), src/ed.c lines 32, 207. -/
def clearScreenSeq : List Nat := [27, 91, 50, 74]

/-- Bytes of the C literal "\x1b[k" appended per row in editorDrawRows,
src/ed.c line 166.  Note the final byte is 107, lowercase "k". -/
def drawRowsLineSeq : List Nat := [27, 91, 107]

/-- Bytes of the VT100 clear-to-end-of-line sequence "\x1b[K" (uppercase "K",
byte 75), as the specification demands for the per-row clear. -/
def vt100ClearLineSeq : List Nat := [27, 91, 75]

/-- Bytes of the C literal "~", the one-byte row marker, src/ed.c line 164. -/
def tildeSeq : List Nat := [126]

/-- Bytes of the C literal "\r\n", src/ed.c line 168. -/
def crlfSeq : List Nat := [13, 10]

/-- Bytes of the C literal "\x1b[6n" (request cursor position), src/ed.c line 102. -/
def cursorQuerySeq : List Nat := [27, 91, 54, 110]

/-! ### Append buffer (src/ed.c lines 135-157) -/

/-- Model of struct abuf (src/ed.c lines 135-138): the bytes the heap block
holds, plus the separate length field.  The C pointer-plus-heap pair is
modeled as the list of bytes reachable from the pointer. -/
structure abuf where
  b : List Nat
  len : Nat
  deriving Repr, DecidableEq

/-- Model of the ABUF_INIT constant {NULL, 0} (src/ed.c line 141). -/
def ABUF_INIT : abuf := ⟨[], 0⟩

/-- Model of abAppend (src/ed.c lines 143-152).  realloc is modeled by the
explicit allocOk flag: when it fails (allocOk = false, realloc returned NULL)
the function returns at once and the old block, its contents and the len
field are untouched.  On success the reallocated block keeps the first
ab.len bytes of the old contents, memcpy places the first len bytes of s
right after them, and the pointer and the len field are updated. -/
def abAppend (ab : abuf) (s : List Nat) (len : Nat) (allocOk : Bool) : abuf :=
  if allocOk then ⟨ab.b.take ab.len ++ s.take len, ab.len + len⟩ else ab

/-- Iterated successful abAppend, each call passing the string together with
its exact length, the way every call site in src/ed.c does. -/
def appendAll (ab : abuf) (l : List (List Nat)) : abuf :=
  l.foldl (fun acc s => abAppend acc s s.length true) ab

/-- Well-formedness (the C invariant that len counts the allocated bytes)
is preserved and appendAll concatenates, from any well-formed buffer. -/
theorem appendAll_spec (l : List (List Nat)) : ∀ ab : abuf, ab.len = ab.b.length →
    (appendAll ab l).b = ab.b ++ l.flatten ∧
    (appendAll ab l).len = ab.len + (l.map List.length).sum := by
  induction l with
  | nil =>
    intro ab _
    simp [appendAll]
  | cons s t ih =>
    intro ab hwf
    have hstep : abAppend ab s s.length true = ⟨ab.b ++ s, ab.len + s.length⟩ := by
      simp [abAppend, hwf]
    have hwf2 : (abAppend ab s s.length true).len = (abAppend ab s s.length true).b.length := by
      rw [hstep]
      simp [hwf]
    have happ : appendAll ab (s :: t) = appendAll (abAppend ab s s.length true) t := rfl
    rcases ih (abAppend ab s s.length true) hwf2 with ⟨hb, hl⟩
    constructor
    · rw [happ, hb, hstep]
      simp
    · rw [happ, hl, hstep]
      simp [Nat.add_assoc]

/-- Claim C6: after any sequence of successful abAppend calls with byte
strings b1..bn on an initially empty buffer (ABUF_INIT), the buffer contents
equal the concatenation b1 ++ ... ++ bn and the len field equals the sum of
the appended lengths. -/
theorem c6_append_concat (l : List (List Nat)) :
    (appendAll ABUF_INIT l).b = l.flatten ∧
    (appendAll ABUF_INIT l).len = (l.map List.length).sum := by
  have h := appendAll_spec l ABUF_INIT rfl
  simpa [ABUF_INIT] using h

/-- Claim C7: when the realloc inside abAppend fails (returns NULL), the
append is silently dropped: the call returns normally and the buffer record
(pointer/contents and length field) is exactly what it was before. -/
theorem c7_append_alloc_failure (ab : abuf) (s : List Nat) (len : Nat) :
    abAppend ab s len false = ab := rfl

/-! ### Render loop (src/ed.c lines 161-198) -/

/-- The body of the for-loop of editorDrawRows (src/ed.c lines 163-170),
iterated structurally: the fuel argument counts the remaining iterations
(it starts at screenrows while y starts at 0, so the loop runs for
y = 0 .. screenrows-1 exactly as the C for-loop does).  Each iteration
appends the one-byte marker "~", then the three bytes "\x1b[k", and, when
y < screenrows - 1, the two bytes "\r\n". -/
def drawRowsGo (screenrows : Nat) : Nat → Nat → abuf → abuf
  | 0, _, ab => ab
  | n + 1, y, ab =>
    let ab1 := abAppend ab tildeSeq 1 true
    let ab2 := abAppend ab1 drawRowsLineSeq 3 true
    let ab3 := if y < screenrows - 1 then abAppend ab2 crlfSeq 2 true else ab2
    drawRowsGo screenrows n (y + 1) ab3

/-- Model of editorDrawRows (src/ed.c lines 161-171). -/
def editorDrawRows (screenrows : Nat) (ab : abuf) : abuf :=
  drawRowsGo screenrows screenrows 0 ab

/-- Model of editorRefreshScreen (src/ed.c lines 173-198) with every realloc
succeeding.  The returned list holds the byte content of each write call the
function performs; the source performs exactly one,
write(STDOUT_FILENO, ab.b, ab.len), before freeing the buffer. -/
def editorRefreshScreen (screenrows : Nat) : List (List Nat) :=
  let ab0 := ABUF_INIT
  let ab1 := abAppend ab0 hideCursorSeq 6 true
  let ab2 := abAppend ab1 homeCursorSeq 3 true
  let ab3 := editorDrawRows screenrows ab2
  let ab4 := abAppend ab3 homeCursorSeq 3 true
  let ab5 := abAppend ab4 showCursorSeq 6 true
  [ab5.b.take ab5.len]

/-- The frame bytes that claim C3 asserts, built from the words of the
specification (hide cursor, home, then per row the marker, the VT100
clear-to-end-of-line sequence ESC [ K, and a CRLF pair after every row but
the last, then home, show cursor).  This definition follows the claim, not
the source, and exists only to be compared against editorRefreshScreen. -/
def specClaimedFrame (rows : Nat) : List Nat :=
  hideCursorSeq ++ homeCursorSeq ++
    ((List.range rows).map (fun y =>
      tildeSeq ++ vt100ClearLineSeq ++ (if y < rows - 1 then crlfSeq else []))).flatten ++
    homeCursorSeq ++ showCursorSeq

/-- Claim C3 (settled against the code): on geometry rows = 3 the refresh
performs exactly one write, whose bytes are hide-cursor, home, then per row
the marker "~" followed by the three bytes 27 91 107 (ESC [ lowercase k)
with CRLF after every row but the last, then home, show-cursor.  The
per-row clear the code emits is ESC [ k (byte 107), not the VT100
clear-to-end-of-line ESC [ K (byte 75) the claim states, so the produced
frame differs from the claimed frame. -/
theorem c3_refresh_frame :
    editorRefreshScreen 3 =
      [hideCursorSeq ++ homeCursorSeq ++
        (tildeSeq ++ drawRowsLineSeq ++ crlfSeq) ++
        (tildeSeq ++ drawRowsLineSeq ++ crlfSeq) ++
        (tildeSeq ++ drawRowsLineSeq) ++
        homeCursorSeq ++ showCursorSeq] ∧
    editorRefreshScreen 3 ≠ [specClaimedFrame 3] := by
  constructor
  · decide
  · decide

/-! ### Input dispatch (src/ed.c lines 200-213) -/

/-- Model of the CTRL_KEY macro (src/ed.c line 16): bitwise AND with 0x1f. -/
def CTRL_KEY (k : Nat) : Nat := k &&& 0x1f

/-- The externally visible effect of one editorProcessKeypress call: the
write calls it performs and the exit status it terminates with, if any. -/
structure KeypressEffect where
  writes : List (List Nat)
  exitStatus : Option Nat
  deriving Repr, DecidableEq

/-- Model of editorProcessKeypress (src/ed.c lines 202-213), applied to the
byte c that editorReadKey returned.  The switch has a single case,
CTRL_KEY of "q" (113): write "\x1b[2J", write "\x1b[H", exit(0).  Every
other byte falls through the switch with no writes and no exit. -/
def editorProcessKeypress (c : Nat) : KeypressEffect :=
  if c = CTRL_KEY 113 then ⟨[clearScreenSeq, homeCursorSeq], some 0⟩ else ⟨[], none⟩

/-- Claim C5: input byte 0x11 (CTRL_KEY of "q" = 0x71 with the upper three
bits cleared) makes editorProcessKeypress write the clear-entire-screen and
home-cursor sequences and exit with status 0; every other byte produces no
writes and no exit. -/
theorem c5_keypress_dispatch (c : Nat) :
    editorProcessKeypress c =
      if c = 0x11 then ⟨[clearScreenSeq, homeCursorSeq], some 0⟩
      else ⟨[], none⟩ := by
  have hctrl : CTRL_KEY 113 = 0x11 := by decide
  rw [editorProcessKeypress, hctrl]

/-! ### Key reader (src/ed.c lines 88-96) -/

/-- One result of the underlying read(STDIN_FILENO, &c, 1) call:
ok c means it returned 1 having stored byte c; noData means it returned 0;
eagainErr means it returned -1 with errno = EAGAIN; otherErr means it
returned -1 with any other errno. -/
inductive ReadRes where
  | ok (c : Nat)
  | noData
  | eagainErr
  | otherErr
  deriving Repr, DecidableEq

/-- Outcome of editorReadKey on a stream of read results: ret c n means it
returned byte c after n read attempts; fatal n means the n-th attempt made
it call die "read"; blocked means the stream ran out with the loop still
waiting for a byte. -/
inductive KeyOutcome where
  | ret (c : Nat) (attempts : Nat)
  | fatal (attempts : Nat)
  | blocked
  deriving Repr, DecidableEq

/-- Accounts for one earlier read attempt in front of an outcome. -/
def KeyOutcome.bump : KeyOutcome → KeyOutcome
  | .ret c n => .ret c (n + 1)
  | .fatal n => .fatal (n + 1)
  | .blocked => .blocked

/-- Model of editorReadKey (src/ed.c lines 88-96): while read does not
return 1, die "read" when it returned -1 with errno other than EAGAIN,
otherwise (0 bytes, or -1 with EAGAIN) try again; once a read returns 1,
return the byte it stored. -/
def editorReadKey : List ReadRes → KeyOutcome
  | [] => .blocked
  | .ok c :: _ => .ret c 1
  | .noData :: rest => (editorReadKey rest).bump
  | .eagainErr :: rest => (editorReadKey rest).bump
  | .otherErr :: _ => .fatal 1

/-- Claim C8: reads that time out with no data (read returning 0, or -1 with
errno = EAGAIN) are retried internally, and editorReadKey returns the first
byte a read delivers, after one attempt per stream entry consumed; a read
failure other than a timeout is fatal on the spot. -/
theorem c8_readkey_retries (pre rest : List ReadRes) (c : Nat)
    (h : ∀ r ∈ pre, r = ReadRes.noData ∨ r = ReadRes.eagainErr) :
    editorReadKey (pre ++ ReadRes.ok c :: rest) = KeyOutcome.ret c (pre.length + 1) ∧
    ∀ rest2 : List ReadRes, editorReadKey (ReadRes.otherErr :: rest2) = KeyOutcome.fatal 1 := by
  constructor
  · induction pre with
    | nil => rfl
    | cons r t ih =>
      have hr := h r (List.mem_cons_self r t)
      have ht : ∀ x ∈ t, x = ReadRes.noData ∨ x = ReadRes.eagainErr :=
        fun x hx => h x (List.mem_cons_of_mem r hx)
      rcases hr with hr | hr <;> subst hr <;>
        simp [editorReadKey, ih ht, KeyOutcome.bump, Nat.add_assoc, Nat.add_comm]
  · intro rest2
    rfl

/-- Witness for claim C8: two timeouts (one read returning 0, one returning
-1 with EAGAIN) followed by byte 0x41 yield 0x41 after exactly three read
attempts, and an immediate non-timeout failure is fatal. -/
theorem c8_readkey_witness :
    editorReadKey [ReadRes.noData, ReadRes.eagainErr, ReadRes.ok 65] = KeyOutcome.ret 65 3 ∧
    editorReadKey [ReadRes.otherErr] = KeyOutcome.fatal 1 := by
  have h := c8_readkey_retries [ReadRes.noData, ReadRes.eagainErr] [] 65 (by decide)
  exact ⟨by simpa using h.1, h.2 []⟩

/-! ### Geometry prober (src/ed.c lines 98-131) -/

/-- The digit bytes that a sscanf %d conversion consumes. -/
def isDigitByte (c : Nat) : Bool := 48 ≤ c && c ≤ 57

/-- The whitespace bytes that a sscanf %d conversion skips (space 32 and
the control characters 9 to 13). -/
def isSpaceByte (c : Nat) : Bool := c == 32 || (9 ≤ c && c ≤ 13)

/-- Consumes further digit bytes, extending the already parsed value acc. -/
def takeDigits : List Nat → Nat → Nat × List Nat
  | [], acc => (acc, [])
  | c :: rest, acc =>
    if isDigitByte c then takeDigits rest (acc * 10 + (c - 48)) else (acc, c :: rest)

/-- A digit run that must start with at least one digit. -/
def scanUnsigned : List Nat → Option (Nat × List Nat)
  | [] => none
  | c :: rest => if isDigitByte c then some (takeDigits rest (c - 48)) else none

/-- One sscanf %d conversion: skip whitespace, allow one sign byte, then
require at least one digit; returns the value and the unconsumed rest. -/
def scanInt (s : List Nat) : Option (Int × List Nat) :=
  match s.dropWhile (fun c => isSpaceByte c) with
  | 45 :: rest => (scanUnsigned rest).map (fun p => (-(p.1 : Int), p.2))
  | 43 :: rest => (scanUnsigned rest).map (fun p => ((p.1 : Int), p.2))
  | s1 => (scanUnsigned s1).map (fun p => ((p.1 : Int), p.2))

/-- Model of sscanf(&buf[2], "%d;%d", rows, cols) as used at src/ed.c
line 113: conversions run left to right on the null-terminated string, the
second only after the first succeeded and the literal ";" (59) matched.
The pair tells what each conversion stored through its pointer (none =
nothing stored); sscanf returns 2 exactly when both components are some. -/
def sscanfRowsCols (s : List Nat) : Option Int × Option Int :=
  let str := s.takeWhile (fun c => c != 0)
  match scanInt str with
  | none => (none, none)
  | some (r, rest) =>
    match rest with
    | 59 :: rest2 =>
      match scanInt rest2 with
      | none => (some r, none)
      | some (c, _) => (some r, some c)
    | _ => (some r, none)

/-- The read loop of getCursorPosition (src/ed.c lines 104-108) over the
stream of read results (some b: read returned 1 having stored byte b;
none: read did not return 1).  It runs while i < sizeof(buf) - 1 = 31,
breaks without storing when a read fails, stores each received byte at
index i, breaks without incrementing when the byte is "R" (82), and
increments i otherwise.  Returns the final i and the final buffer; an
exhausted stream behaves like a failing read. -/
def cursorLoop : Nat → List Nat → List (Option Nat) → Nat × List Nat
  | i, buf, [] => (i, buf)
  | i, buf, r :: rest =>
    if i < 31 then
      match r with
      | none => (i, buf)
      | some b => if b = 82 then (i, buf.set i b) else cursorLoop (i + 1) (buf.set i b) rest
    else (i, buf)

/-- What a probe call leaves behind: its int return value and the values
stored through the rows / cols out-pointers (none = never stored). -/
structure ProbeResult where
  retval : Int
  rows : Option Int
  cols : Option Int
  deriving Repr, DecidableEq

/-- Model of getCursorPosition (src/ed.c lines 98-116).  queryWriteOk tells
whether write(STDOUT_FILENO, "\x1b[6n", 4) wrote all 4 bytes; input is the
stream of read results.  The 32-byte local buffer starts modeled as zeroed
(its initial bytes matter to no claim settled here).  After the read loop
the byte at the final index is overwritten with 0, the ESC [ prefix is
checked, and the tail is handed to sscanf.  The source stores the parsed
row and column through the out-pointers on its success path and then still
executes `return -1` (src/ed.c line 115), so retval is -1 on every path. -/
def getCursorPosition (queryWriteOk : Bool) (input : List (Option Nat)) : ProbeResult :=
  if queryWriteOk then
    let p := cursorLoop 0 (List.replicate 32 0) input
    let buf := p.2.set p.1 0
    if buf.getD 0 0 = 27 ∧ buf.getD 1 0 = 91 then
      let rc := sscanfRowsCols (buf.drop 2)
      ⟨-1, rc.1, rc.2⟩
    else ⟨-1, none, none⟩
  else ⟨-1, none, none⟩

/-- The winsize structure the TIOCGWINSZ ioctl fills. -/
structure Winsize where
  ws_row : Nat
  ws_col : Nat
  deriving Repr, DecidableEq

/-- Model of getWindowSize (src/ed.c lines 118-131).  ioctlRes is the
result of ioctl(STDOUT_FILENO, TIOCGWINSZ, &ws), none when it returned -1.
When the ioctl failed or reported zero columns, the fallback writes
"\x1b[99C\x1b[999B" (escWriteOk tells whether all 12 bytes, the 11
characters plus the trailing NUL, were written) and defers to
getCursorPosition; otherwise the winsize values are stored and 0 returned. -/
def getWindowSize (ioctlRes : Option Winsize) (escWriteOk queryWriteOk : Bool)
    (input : List (Option Nat)) : ProbeResult :=
  match ioctlRes with
  | none =>
    if escWriteOk then getCursorPosition queryWriteOk input else ⟨-1, none, none⟩
  | some ws =>
    if ws.ws_col = 0 then
      if escWriteOk then getCursorPosition queryWriteOk input else ⟨-1, none, none⟩
    else ⟨0, some (ws.ws_row : Int), some (ws.ws_col : Int)⟩

/-- Claim C1 (settled against the code): with the direct query failing
(ioctl returns -1) and the response ESC [ 40 ; 120 R arriving byte by
byte, the fallback through getCursorPosition parses the report and stores
rows = 40 and cols = 120 through the out-pointers, yet getWindowSize
returns -1: the probe reports failure (which initEditor escalates to
die "getWindowSize") instead of succeeding with Geometry{40,120}. -/
theorem c1_probe_parses_but_reports_failure :
    getWindowSize none true true
      ([27, 91, 52, 48, 59, 49, 50, 48, 82].map Option.some) =
      ⟨-1, some 40, some 120⟩ := by decide

/-- The loop index of cursorLoop never grows past 31 when it starts at or
below 31, because the guard i < 31 is checked before every store. -/
theorem cursorLoop_index_le (input : List (Option Nat)) :
    ∀ i buf, i ≤ 31 → (cursorLoop i buf input).1 ≤ 31 := by
  induction input with
  | nil =>
    intro i buf h
    simpa [cursorLoop] using h
  | cons r rest ih =>
    intro i buf h
    by_cases hlt : i < 31
    · cases r with
      | none => simpa [cursorLoop, hlt] using h
      | some b =>
        by_cases hb : b = 82
        · simpa [cursorLoop, hlt, hb] using h
        · simpa [cursorLoop, hlt, hb] using ih (i + 1) (buf.set i b) (by omega)
    · simpa [cursorLoop, hlt] using h

/-- cursorLoop only stores into existing cells, so the buffer keeps its
length. -/
theorem cursorLoop_length (input : List (Option Nat)) :
    ∀ i buf, (cursorLoop i buf input).2.length = buf.length := by
  induction input with
  | nil =>
    intro i buf
    simp [cursorLoop]
  | cons r rest ih =>
    intro i buf
    by_cases hlt : i < 31
    · cases r with
      | none => simp [cursorLoop, hlt]
      | some b =>
        by_cases hb : b = 82
        · simp [cursorLoop, hlt, hb]
        · simpa [cursorLoop, hlt, hb] using ih (i + 1) (buf.set i b)
    · simp [cursorLoop, hlt]

/-- Claim C10: for every stream of read results, the index at which
getCursorPosition writes the terminating null byte is at most 31, and the
buffer still has its 32 cells there, so the store buf[i] = 0 is inside
the 32-byte local buffer whether or not an "R" terminator ever arrived. -/
theorem c10_terminator_write_in_bounds (input : List (Option Nat)) :
    (cursorLoop 0 (List.replicate 32 0) input).1 ≤ 31 ∧
    (cursorLoop 0 (List.replicate 32 0) input).2.length = 32 := by
  refine ⟨cursorLoop_index_le input 0 _ (by omega), ?_⟩
  simpa using cursorLoop_length input 0 (List.replicate 32 0)

/-! ### Raw-mode attribute derivation (src/ed.c lines 45-84)

Flag-bit constants of x86-64 Linux / glibc <bits/termios.h>. -/

/-- Input flag: signal on break condition. -/
def BRKINT : Nat := 0x0002

/-- Input flag: translate CR to LF on input. -/
def ICRNL : Nat := 0x0100

/-- Input flag: parity checking. -/
def INPCK : Nat := 0x0010

/-- Input flag: strip the 8th bit. -/
def ISTRIP : Nat := 0x0020

/-- Input flag: software flow control. -/
def IXON : Nat := 0x0400

/-- Output flag: output processing (LF to CRLF among it). -/
def OPOST : Nat := 0x0001

/-- Control flag: 8-bit character size (fills the CSIZE field). -/
def CS8 : Nat := 0x0030

/-- Local flag: signal-generating control characters. -/
def ISIG : Nat := 0x0001

/-- Local flag: canonical (line-buffered) input. -/
def ICANON : Nat := 0x0002

/-- Local flag: echo of typed characters. -/
def ECHO : Nat := 0x0008

/-- Local flag: extended input processing. -/
def IEXTEN : Nat := 0x8000

/-- The C operation x &= ~m at the 32-bit width of tcflag_t. -/
def clearBits (x m : Nat) : Nat := x &&& (0xFFFFFFFF ^^^ m)

/-- The termios fields the program manipulates: the four flag words
(c_iflag input modes, c_oflag output modes, c_cflag control modes,
c_lflag local modes) and the two control characters it sets. -/
structure Termios where
  c_iflag : Nat
  c_oflag : Nat
  c_cflag : Nat
  c_lflag : Nat
  vmin : Nat
  vtime : Nat
  deriving Repr, DecidableEq

/-- Model of the attribute derivation in enableRawMode (src/ed.c lines
50-79) from the attribute set t that tcgetattr read into raw.  All four
mask operations in the source name raw.c_lflag — lines 60, 63 and 66
apply the input-flag, output-flag and control-flag masks to c_lflag too —
so only c_lflag changes; then c_cc[VMIN] = 0 and c_cc[VTIME] = 1. -/
def rawFrom (t : Termios) : Termios :=
  let l1 := clearBits t.c_lflag (BRKINT ||| ICRNL ||| INPCK ||| ISTRIP ||| IXON)
  let l2 := clearBits l1 OPOST
  let l3 := l2 ||| CS8
  let l4 := clearBits l3 (ECHO ||| ICANON ||| IEXTEN ||| ISIG)
  ⟨t.c_iflag, t.c_oflag, t.c_cflag, l4, 0, 1⟩

/-- A representative original attribute set: a cooked-mode terminal with
BRKINT, ICRNL, INPCK, ISTRIP and IXON set in c_iflag, OPOST in c_oflag, a
character size other than CS8 in c_cflag, and ISIG, ICANON, ECHO and
IEXTEN set in c_lflag, VMIN = 1, VTIME = 0. -/
def sampleCookedTermios : Termios :=
  ⟨BRKINT ||| ICRNL ||| INPCK ||| ISTRIP ||| IXON, OPOST, 0,
    ISIG ||| ICANON ||| ECHO ||| IEXTEN, 1, 0⟩

/-- Claim C4 (settled against the code): on the sample original attribute
set the modified set enableRawMode applies keeps c_iflag, c_oflag and
c_cflag exactly as they were — ICRNL, IXON, BRKINT, INPCK and ISTRIP stay
set in c_iflag, OPOST stays set in c_oflag, and the character size in
c_cflag is not forced to CS8 — because every mask lands on c_lflag.  Only
ECHO, ICANON, IEXTEN and ISIG end up cleared in their correct field, so
the feature list of the claim is not disabled in the correct termios flag
fields. -/
theorem c4_masks_on_wrong_fields :
    (rawFrom sampleCookedTermios).c_iflag = sampleCookedTermios.c_iflag ∧
    (rawFrom sampleCookedTermios).c_oflag = sampleCookedTermios.c_oflag ∧
    (rawFrom sampleCookedTermios).c_cflag = sampleCookedTermios.c_cflag ∧
    (rawFrom sampleCookedTermios).c_iflag &&& ICRNL ≠ 0 ∧
    (rawFrom sampleCookedTermios).c_iflag &&& IXON ≠ 0 ∧
    (rawFrom sampleCookedTermios).c_oflag &&& OPOST ≠ 0 ∧
    (rawFrom sampleCookedTermios).c_cflag &&& CS8 ≠ CS8 ∧
    (rawFrom sampleCookedTermios).c_lflag &&& (ECHO ||| ICANON ||| IEXTEN ||| ISIG) = 0 := by
  decide

/-! ### Attribute capture and restore (src/ed.c lines 41-50, 216-219)

The capture call is tcgetattr(STDIN_FILENO, &E) and the restore call is
tcsetattr(STDIN_FILENO, TCSAFLUSH, &E): both name the whole struct E, not
&E.orig_termios, so both act on the bytes at offset 0 of E.  E is modeled
by its raw bytes under the x86-64 layout: screenrows at offsets 0-3,
screencols at 4-7, orig_termios at 8-67. -/

/-- sizeof(struct termios) on x86-64 Linux / glibc: four 4-byte flag
words, c_line, the 32-byte c_cc array, padding, two 4-byte speeds. -/
def termiosSize : Nat := 60

/-- sizeof(struct editorConfig): two 4-byte ints plus the termios. -/
def configSize : Nat := 68

/-- Overwrites the bytes of mem from offset off with src. -/
def writeBytesAt (mem : List Nat) (off : Nat) (src : List Nat) : List Nat :=
  mem.take off ++ src ++ mem.drop (off + src.length)

/-- Model of the capture in enableRawMode (src/ed.c line 47): the 60
termios bytes A that tcgetattr reads land at offset 0 of E. -/
def enableCaptureBytes (A mem : List Nat) : List Nat :=
  writeBytesAt mem 0 A

/-- Little-endian bytes of a 32-bit int value. -/
def encode4 (n : Nat) : List Nat :=
  [n % 256, n / 256 % 256, n / 65536 % 256, n / 16777216 % 256]

/-- Model of initEditor (src/ed.c lines 216-219) on the successful ioctl
path: getWindowSize stores the geometry through &E.screenrows and
&E.screencols, the ints at offsets 0-3 and 4-7 of E. -/
def initEditorStoreBytes (rows cols : Nat) (mem : List Nat) : List Nat :=
  writeBytesAt (writeBytesAt mem 0 (encode4 rows)) 4 (encode4 cols)

/-- Model of the restore in disableRawMode (src/ed.c line 42): the
attribute set handed to tcsetattr is read from &E, i.e. it is the first
60 bytes of E. -/
def disableAppliedBytes (mem : List Nat) : List Nat :=
  mem.take termiosSize

/-- Claim C2 (settled against the code): right after enableRawMode the
restore would still reapply exactly the captured set A, but once
initEditor has stored the geometry (here 40 rows, 120 columns) through
&E.screenrows and &E.screencols, the first 8 bytes of the region that
disableRawMode hands to tcsetattr are the two geometry ints, so the
applied set is encode4 40 ++ encode4 120 ++ A.drop 8 — and differs from A
whenever the first byte of A is not 40.  The round-trip identity the
claim states therefore fails after initEditor. -/
theorem c2_restore_clobbered_by_geometry (A mem : List Nat)
    (hA : A.length = termiosSize) (_hm : mem.length = configSize) :
    disableAppliedBytes (enableCaptureBytes A mem) = A ∧
    disableAppliedBytes (initEditorStoreBytes 40 120 (enableCaptureBytes A mem)) =
      encode4 40 ++ encode4 120 ++ A.drop 8 ∧
    (A.getD 0 0 ≠ 40 →
      disableAppliedBytes (initEditorStoreBytes 40 120 (enableCaptureBytes A mem)) ≠ A) := by
  have hA60 : A.length = 60 := hA
  have hcap : enableCaptureBytes A mem = A ++ mem.drop 60 := by
    simp [enableCaptureBytes, writeBytesAt, hA60]
  have h1 : disableAppliedBytes (enableCaptureBytes A mem) = A := by
    rw [hcap]
    exact List.take_left' hA60
  have hstep1 : writeBytesAt (A ++ mem.drop 60) 0 (encode4 40) =
      encode4 40 ++ (A.drop 4 ++ mem.drop 60) := by
    simp [writeBytesAt, encode4]
    rw [List.drop_append_of_le_length (by omega)]
  have hstep2 : writeBytesAt (encode4 40 ++ (A.drop 4 ++ mem.drop 60)) 4 (encode4 120) =
      encode4 40 ++ encode4 120 ++ (A.drop 8 ++ mem.drop 60) := by
    simp [writeBytesAt, encode4]
    rw [List.drop_append_of_le_length (by rw [List.length_drop]; omega)]
    simp [List.drop_drop]
  have hinit : initEditorStoreBytes 40 120 (enableCaptureBytes A mem) =
      (encode4 40 ++ encode4 120 ++ A.drop 8) ++ mem.drop 60 := by
    rw [initEditorStoreBytes, hcap, hstep1, hstep2]
    simp [List.append_assoc]
  have h2 : disableAppliedBytes (initEditorStoreBytes 40 120 (enableCaptureBytes A mem)) =
      encode4 40 ++ encode4 120 ++ A.drop 8 := by
    rw [hinit]
    exact List.take_left' (by simp [encode4, termiosSize]; omega)
  refine ⟨h1, h2, ?_⟩
  intro hne heq
  apply hne
  have h3 := congrArg (fun l => l.getD 0 0) heq
  rw [h2] at h3
  simpa [encode4] using h3.symm

/-- Witness for claim C2 at a concrete captured set (60 bytes of value 7)
and a zeroed E: the restore is exact right after enable, and after
initEditor stores 40 x 120 the applied set starts with the geometry bytes
and is no longer the captured set. -/
theorem c2_restore_clobbered_witness :
    disableAppliedBytes (enableCaptureBytes (List.replicate 60 7) (List.replicate 68 0)) =
      List.replicate 60 7 ∧
    disableAppliedBytes (initEditorStoreBytes 40 120
        (enableCaptureBytes (List.replicate 60 7) (List.replicate 68 0))) =
      encode4 40 ++ encode4 120 ++ (List.replicate 60 7).drop 8 ∧
    ((List.replicate 60 7).getD 0 0 ≠ 40 →
      disableAppliedBytes (initEditorStoreBytes 40 120
          (enableCaptureBytes (List.replicate 60 7) (List.replicate 68 0))) ≠
        List.replicate 60 7) :=
  c2_restore_clobbered_by_geometry (List.replicate 60 7) (List.replicate 68 0)
    (by decide) (by decide)

/-! ### Exit paths (src/ed.c lines 30-39, 202-213, 221-230) -/

/-- The ways the process image ends.  quit is the CTRL_KEY("q") case of
editorProcessKeypress (exit(0), src/ed.c line 210); the others are the
die call sites: tcgetattr in enableRawMode, tcsetattr in enableRawMode
and disableRawMode, read in editorReadKey, getWindowSize in initEditor.
main never leaves its loop, so these are all the exits the program has. -/
inductive ExitCause where
  | quit
  | dieTcgetattr
  | dieTcsetattr
  | dieRead
  | dieGetWindowSize
  deriving Repr, DecidableEq

/-- The operation name each die call site passes as its argument s. -/
def dieArg : ExitCause → String
  | .quit => ""
  | .dieTcgetattr => "tcgetattr"
  | .dieTcsetattr => "tcsetattr"
  | .dieRead => "read"
  | .dieGetWindowSize => "getWindowSize"

/-- What the process does on its way out: its writes to standard output,
the line printed to standard error, and the exit status. -/
structure ExitBehavior where
  writes : List (List Nat)
  stderrLine : Option String
  status : Nat
  deriving Repr, DecidableEq

/-- Model of die (src/ed.c lines 30-39): write "\x1b[2J", write "\x1b[H",
then perror(s) prints one line made of s, a colon and a space, and the OS
error text for the current errno on standard error, and exit(1).  err is
that OS error text. -/
def die (s err : String) : ExitBehavior :=
  ⟨[clearScreenSeq, homeCursorSeq], some (s ++ ": " ++ err), 1⟩

/-- The exit behavior of each exit path.  The quit path (src/ed.c lines
205-210) writes the clear-screen and home sequences itself and calls
exit(0); every other path goes through die with its operation name. -/
def exitBehavior (cause : ExitCause) (err : String) : ExitBehavior :=
  match cause with
  | .quit => ⟨[clearScreenSeq, homeCursorSeq], none, 0⟩
  | c => die (dieArg c) err

/-- Claim C9: the process exits with status 0 exactly on the user quit
path; every fatal path exits with status 1 after writing the
clear-entire-screen and home-cursor sequences and emitting on standard
error one line naming the failing operation followed by the OS error
text. -/
theorem c9_exit_statuses (cause : ExitCause) (err : String)
    (h : cause ≠ ExitCause.quit) :
    ((exitBehavior cause err).status = 0 ↔ cause = ExitCause.quit) ∧
    (exitBehavior cause err).status = 1 ∧
    (exitBehavior cause err).writes = [clearScreenSeq, homeCursorSeq] ∧
    (exitBehavior cause err).stderrLine = some (dieArg cause ++ ": " ++ err) ∧
    (exitBehavior ExitCause.quit err).status = 0 := by
  cases cause with
  | quit => exact absurd rfl h
  | dieTcgetattr => exact ⟨by simp [exitBehavior, die], rfl, rfl, rfl, rfl⟩
  | dieTcsetattr => exact ⟨by simp [exitBehavior, die], rfl, rfl, rfl, rfl⟩
  | dieRead => exact ⟨by simp [exitBehavior, die], rfl, rfl, rfl, rfl⟩
  | dieGetWindowSize => exact ⟨by simp [exitBehavior, die], rfl, rfl, rfl, rfl⟩

/-- Witness for claim C9 at the fatal read path with the EAGAIN-free error
text of EIO. -/
theorem c9_exit_statuses_witness :
    ((exitBehavior ExitCause.dieRead "Input/output error").status = 0 ↔
      ExitCause.dieRead = ExitCause.quit) ∧
    (exitBehavior ExitCause.dieRead "Input/output error").status = 1 ∧
    (exitBehavior ExitCause.dieRead "Input/output error").writes =
      [clearScreenSeq, homeCursorSeq] ∧
    (exitBehavior ExitCause.dieRead "Input/output error").stderrLine =
      some (dieArg ExitCause.dieRead ++ ": " ++ "Input/output error") ∧
    (exitBehavior ExitCause.quit "Input/output error").status = 0 :=
  c9_exit_statuses ExitCause.dieRead "Input/output error" (by decide)
